import Mathlib

set_option autoImplicit false

/-!
Shallow embedding of `ovos_PHAL_plugin_system/__init__.py` (class
`SystemEvents`): the factory-reset orchestration — participant registration,
store wiping, fan-out broadcast, acknowledgment wait with its 60-second
timeout, script and reboot phases — and the language-configuration handler.

Message payloads (`message.data`) are modelled in two ways, matching how each
handler reads them:
* `handle_reset_register` and the acknowledgment listener `on_done` inspect the
  raw dictionary (key presence and string values), modelled as an association
  list `List (String × String)`;
* `handle_factory_reset_request` reads only boolean flags through
  `data.get(key, True)`, modelled as `Option Bool` fields, `none` standing for
  an absent key.

The filesystem is modelled by one existence flag per path the reset handler
touches.  Wall-clock time during the acknowledgment wait is modelled in
discrete seconds: the environment supplies the acknowledgment events as a list
of (arrival time, skill_id) pairs.
-/

/-- Python `message.data.get(key)` over a string-valued payload dictionary. -/
def dataGet (d : List (String × String)) (k : String) : Option String :=
  (d.find? (fun p => p.1 = k)).map (fun p => p.2)

/-- Python `key in message.data`. -/
def hasKey (d : List (String × String)) (k : String) : Bool :=
  (dataGet d k).isSome

/-- Python truthiness of `data.get(key)` for a string-valued or absent entry:
an absent key yields `None` (falsy), an empty string is falsy. -/
def truthy (o : Option String) : Bool :=
  match o with
  | none => false
  | some s => !(s == "")

/-- Python `message.data.get(key, True)` for a boolean flag. -/
def flagD (o : Option Bool) : Bool := o.getD true

/-- Keys whose presence makes a registration message without a `skill_id` a
deprecated full factory-reset trigger (source lines 95-97; note the source
checks the singular key `wipe_config` here). -/
def legacyResetKeys : List String :=
  ["reset_hardware", "wipe_cache", "wipe_config", "wipe_data", "wipe_logs"]

/-- `SystemEvents.handle_reset_register` (source lines 91-103).  Returns the
updated `factory_reset_plugs` list, paired with `true` exactly when the
deprecated full-reset path (`handle_factory_reset_request`) was invoked: that
happens only when `skill_id` is falsy and one of `legacyResetKeys` is present.
With a truthy `skill_id` the id is appended unless already present. -/
def handle_reset_register (plugs : List String) (d : List (String × String)) :
    List String × Bool :=
  if truthy (dataGet d "skill_id") = false then
    (plugs, legacyResetKeys.any (fun k => hasKey d k))
  else
    let sid := (dataGet d "skill_id").getD ""
    if sid ∈ plugs then (plugs, false) else (plugs ++ [sid], false)

/-- The `on_done` acknowledgment listener registered during the wait (source
lines 168-174).  The source reads `message.data["skill_id"]` with bracket
access, which raises `KeyError` when the key is absent — modelled as
`Except.error`.  On success it returns the updated `reset_plugs` list and
whether the test it performs (`all participants acknowledged`) set the wait
event. -/
def on_done (factory_reset_plugs reset_plugs : List String)
    (d : List (String × String)) : Except String (List String × Bool) :=
  match dataGet d "skill_id" with
  | none => Except.error "KeyError: skill_id"
  | some sid =>
    let rp := if sid ∈ reset_plugs then reset_plugs else reset_plugs ++ [sid]
    Except.ok (rp, factory_reset_plugs.all (fun s => decide (s ∈ rp)))

/-- `true` when the embedded handler call raised (modelled `KeyError`). -/
def raised (e : Except String (List String × Bool)) : Bool :=
  match e with
  | Except.error _ => true
  | Except.ok _ => false

/-- One acknowledgment step on the `reset_plugs` list: deduplicated append,
as `on_done` performs it. -/
def ackStep (rp : List String) (sid : String) : List String :=
  if sid ∈ rp then rp else rp ++ [sid]

/-- The `reset_plugs` list after a sequence of acknowledged skill ids. -/
def ackFold (sids : List String) : List String :=
  List.foldl ackStep [] sids

/-- The skill ids acknowledged at or before second `t`. -/
def acksUpTo (acks : List (Nat × String)) (t : Nat) : List String :=
  (acks.filter (fun a => decide (a.1 ≤ t))).map (fun a => a.2)

/-- Whether the wait `Event` has been set by second `t`: every
currently-known participant occurs among the acknowledgments received so far
— the test `on_done` runs on each incoming acknowledgment. -/
def eventSetBy (ps : List String) (acks : List (Nat × String)) (t : Nat) : Bool :=
  ps.all (fun s => decide (s ∈ ackFold (acksUpTo acks t)))

/-- `event.wait` scanning discrete seconds upward from `t` with `fuel`
seconds of budget left: returns at the first second at which the event is
set, or when the budget runs out, whichever comes first. -/
def waitLoop (ps : List String) (acks : List (Nat × String)) : Nat → Nat → Nat
  | t, 0 => t
  | t, fuel + 1 =>
    if eventSetBy ps acks t then t else waitLoop ps acks (t + 1) fuel

/-- The second at which `event.wait(timeout=timeout)` unblocks. -/
def unblockTime (timeout : Nat) (ps : List String)
    (acks : List (Nat × String)) : Nat :=
  waitLoop ps acks 0 timeout

/-- Existence flags, one per path `handle_factory_reset_request` touches:
the two identity credential files, the XDG cache directory, the XDG data
directory, the seven `JsonStorageXDG` store files, the three `JsonDatabaseXDG`
store files, the XDG state (log) directory, and the three configuration
files. -/
structure FS where
  old_identity : Bool
  identity : Bool
  cache_dir : Bool
  data_dir : Bool
  store_device_info : Bool
  store_oauth : Bool
  store_oauth_apps : Bool
  store_devices : Bool
  store_metrics : Bool
  store_preferences : Bool
  store_skills_meta : Bool
  db_metrics : Bool
  db_utterances : Bool
  db_wakewords : Bool
  log_dir : Bool
  old_user_config : Bool
  user_config : Bool
  web_config_cache : Bool
deriving DecidableEq

/-- The boolean flags of a `system.factory.reset` payload, each read by the
source as `message.data.get(key, True)`; `none` models an absent key. -/
structure ResetData where
  wipe_cache : Option Bool
  wipe_data : Option Bool
  wipe_logs : Option Bool
  wipe_configs : Option Bool
  reset_hardware : Option Bool
  script : Option Bool
  reboot : Option Bool
deriving DecidableEq

/-- The store-wiping portion of `handle_factory_reset_request` (source lines
110-158): the identity files are removed unconditionally (lines 110-113,
before any flag is read); each other group is removed only under its flag.
Every removal in the source is guarded by an existence check and removing an
absent path is a no-op, so each removal clears the existence flag. -/
def wipeStores (d : ResetData) (fs : FS) : FS :=
  let fs1 := { fs with old_identity := false, identity := false }
  let fs2 := if flagD d.wipe_cache then { fs1 with cache_dir := false } else fs1
  let fs3 :=
    if flagD d.wipe_data then
      { fs2 with
        data_dir := false
        store_device_info := false
        store_oauth := false
        store_oauth_apps := false
        store_devices := false
        store_metrics := false
        store_preferences := false
        store_skills_meta := false
        db_metrics := false
        db_utterances := false
        db_wakewords := false }
    else fs2
  let fs4 := if flagD d.wipe_logs then { fs3 with log_dir := false } else fs3
  if flagD d.wipe_configs then
    { fs4 with
      old_user_config := false
      user_config := false
      web_config_cache := false }
  else fs4

/-- The bus events the factory-reset handler emits. -/
inductive BusEvent where
  | factory_reset_start
  | factory_reset_ping
  | factory_reset_phal
  | shell_exec_factory_reset (path : String)
  | factory_reset_complete
  | system_reboot
deriving DecidableEq

/-- The plugin-configuration fields the reset handler reads. -/
structure PluginConfig where
  reset_script : String
  use_external_factory_reset : Bool
deriving DecidableEq

/-- The events of the script phase (source lines 182-196): it runs only when
the `script` flag is truthy and the configured script path is a file
(`script_file_exists`); external mode emits the delegation event, internal
mode runs the script and emits the completion event. -/
def scriptEvents (cfg : PluginConfig) (d : ResetData)
    (script_file_exists : Bool) : List BusEvent :=
  if flagD d.script then
    if script_file_exists then
      if cfg.use_external_factory_reset then
        [BusEvent.shell_exec_factory_reset cfg.reset_script]
      else
        [BusEvent.factory_reset_complete]
    else []
  else []

/-- The events of the reboot phase (source lines 198-200). -/
def rebootEvents (d : ResetData) : List BusEvent :=
  if flagD d.reboot then [BusEvent.system_reboot] else []

/-- The observable outcome of one factory-reset run: the filesystem after the
wipe, the emitted events in order, the seconds spent blocked in the
acknowledgment wait (0 when the wait is skipped), and whether the reset
script was executed locally. -/
structure ResetOutcome where
  fs : FS
  emitted : List BusEvent
  waitTime : Nat
  ranScriptLocally : Bool
deriving DecidableEq

/-- The guard of the broadcast/wait block (source line 163):
`if reset_phal and len(self.factory_reset_plugs)`. -/
def doWait (plugs : List String) (d : ResetData) : Bool :=
  flagD d.reset_hardware && !plugs.isEmpty

/-- `SystemEvents.handle_factory_reset_request` (source lines 105-200): emit
the start and ping events, wipe the stores, then — only when the
`reset_hardware` flag is truthy and the participant list is non-empty —
broadcast the fan-out event and block on the acknowledgment wait with a
60-second timeout, then run the script phase and the reboot phase. -/
def handle_factory_reset_request (plugs : List String) (cfg : PluginConfig)
    (script_file_exists : Bool) (d : ResetData) (fs : FS)
    (acks : List (Nat × String)) : ResetOutcome :=
  let fs1 := wipeStores d fs
  let dw := doWait plugs d
  { fs := fs1
    emitted := [BusEvent.factory_reset_start, BusEvent.factory_reset_ping] ++
      (if dw then [BusEvent.factory_reset_phal] else []) ++
      scriptEvents cfg d script_file_exists ++ rebootEvents d
    waitTime := if dw then unblockTime 60 plugs acks else 0
    ranScriptLocally :=
      flagD d.script && script_file_exists && !cfg.use_external_factory_reset }

/-- The observable outcome of `handle_configure_language_request`. -/
structure LangOutcome where
  bash_profile : String
  locale_set : String
  config_update : List (String × String)
  complete_payload : List (String × String)
  displayed : Bool
deriving DecidableEq

/-- Python `language_code.lower().replace("_", "-")`: the pattern is a single
character, so the replacement is a character map applied after lowering. -/
def normalizeLanguageCode (s : String) : String :=
  String.mk (s.data.map (fun c =>
    let c2 := c.toLower
    if c2 = '_' then '-' else c2))

/-- `SystemEvents.handle_configure_language_request` (source lines 278-298):
`.bash_profile` is opened in mode "w", so its previous content
(first argument) is discarded and replaced by the single export line built
from the raw (not yet normalized) code; the locale setter, the shared-config
update and the completion event all use the normalized code. -/
def handle_configure_language_request (_prior_profile : String)
    (d : List (String × String)) : LangOutcome :=
  let language_code := (dataGet d "language_code").getD "en_US"
  let profile := "export LANG=" ++ language_code ++ "\n"
  let code := normalizeLanguageCode language_code
  { bash_profile := profile
    locale_set := code
    config_update := [("lang", code)]
    complete_payload := [("lang", code)]
    displayed := truthy (dataGet d "display") }

/-- A filesystem state in which every touched path exists. -/
def fsAll : FS :=
  ⟨true, true, true, true, true, true, true, true, true, true, true, true,
    true, true, true, true, true, true⟩

/-- A reset payload with no key present: every flag defaults to `True`. -/
def dDefault : ResetData := ⟨none, none, none, none, none, none, none⟩

/-- A reset payload with every flag explicitly `False`. -/
def dAllFalse : ResetData :=
  ⟨some false, some false, some false, some false, some false, some false,
    some false⟩

/-- A plugin configuration with no reset script and internal execution. -/
def cfg0 : PluginConfig := ⟨"", false⟩

/-! ### Helper lemmas about the acknowledgment machinery -/

theorem mem_ackStep {x sid : String} {rp : List String} :
    x ∈ ackStep rp sid ↔ x ∈ rp ∨ x = sid := by
  by_cases h : sid ∈ rp
  · simp only [ackStep, if_pos h]
    constructor
    · exact Or.inl
    · rintro (hx | rfl)
      · exact hx
      · exact h
  · simp [ackStep, if_neg h, List.mem_append]

theorem mem_foldl_ackStep {x : String} :
    ∀ (l init : List String), x ∈ List.foldl ackStep init l ↔ x ∈ init ∨ x ∈ l := by
  intro l
  induction l with
  | nil => intro init; simp
  | cons a l ih =>
    intro init
    simp only [List.foldl_cons, ih, mem_ackStep, List.mem_cons]
    tauto

theorem mem_ackFold {x : String} {l : List String} : x ∈ ackFold l ↔ x ∈ l := by
  unfold ackFold
  rw [mem_foldl_ackStep]
  simp

theorem mem_acksUpTo {p : String} {acks : List (Nat × String)} {t : Nat} :
    p ∈ acksUpTo acks t ↔ ∃ a ∈ acks, a.2 = p ∧ a.1 ≤ t := by
  unfold acksUpTo
  simp only [List.mem_map, List.mem_filter, decide_eq_true_eq]
  constructor
  · rintro ⟨a, ⟨ha, hle⟩, rfl⟩
    exact ⟨a, ha, rfl, hle⟩
  · rintro ⟨a, ha, rfl, hle⟩
    exact ⟨a, ⟨ha, hle⟩, rfl⟩

theorem eventSetBy_true_iff {ps : List String} {acks : List (Nat × String)}
    {t : Nat} :
    eventSetBy ps acks t = true ↔ ∀ p ∈ ps, ∃ a ∈ acks, a.2 = p ∧ a.1 ≤ t := by
  unfold eventSetBy
  simp only [List.all_eq_true, decide_eq_true_eq, mem_ackFold, mem_acksUpTo]

theorem waitLoop_ge (ps : List String) (acks : List (Nat × String)) :
    ∀ (fuel t : Nat), t ≤ waitLoop ps acks t fuel := by
  intro fuel
  induction fuel with
  | zero => intro t; simp [waitLoop]
  | succ n ih =>
    intro t
    simp only [waitLoop]
    split
    · exact Nat.le_refl t
    · exact Nat.le_trans (Nat.le_succ t) (ih (t + 1))

theorem waitLoop_le (ps : List String) (acks : List (Nat × String)) :
    ∀ (fuel t : Nat), waitLoop ps acks t fuel ≤ t + fuel := by
  intro fuel
  induction fuel with
  | zero => intro t; simp [waitLoop]
  | succ n ih =>
    intro t
    simp only [waitLoop]
    split
    · exact Nat.le_add_right t (n + 1)
    · have h := ih (t + 1)
      omega

theorem waitLoop_set_or_timeout (ps : List String) (acks : List (Nat × String)) :
    ∀ (fuel t : Nat),
      eventSetBy ps acks (waitLoop ps acks t fuel) = true ∨
        waitLoop ps acks t fuel = t + fuel := by
  intro fuel
  induction fuel with
  | zero => intro t; right; simp [waitLoop]
  | succ n ih =>
    intro t
    simp only [waitLoop]
    split
    · left; assumption
    · rcases ih (t + 1) with h | h
      · left; exact h
      · right; omega

theorem waitLoop_min (ps : List String) (acks : List (Nat × String)) :
    ∀ (fuel t u : Nat), t ≤ u → u < waitLoop ps acks t fuel →
      eventSetBy ps acks u = false := by
  intro fuel
  induction fuel with
  | zero =>
    intro t u htu hu
    simp only [waitLoop] at hu
    omega
  | succ n ih =>
    intro t u htu hu
    simp only [waitLoop] at hu
    by_cases h : eventSetBy ps acks t = true
    · rw [if_pos h] at hu
      omega
    · rw [if_neg h] at hu
      rcases Nat.eq_or_lt_of_le htu with rfl | hlt
      · exact Bool.eq_false_iff.mpr h
      · exact ih (t + 1) u hlt hu

/-! ### Registration (C3, C4) and the acknowledgment listener (C9) -/

theorem handle_reset_register_idem (d : List (String × String))
    (plugs : List String) :
    (handle_reset_register (handle_reset_register plugs d).1 d).1 =
      (handle_reset_register plugs d).1 := by
  by_cases h : truthy (dataGet d "skill_id") = false
  · simp [handle_reset_register, h]
  · by_cases hm : (dataGet d "skill_id").getD "" ∈ plugs
    · simp [handle_reset_register, h, hm]
    · simp [handle_reset_register, h, hm, List.mem_append]

theorem handle_reset_register_iter (d : List (String × String))
    (plugs : List String) :
    ∀ n : Nat,
      (fun p => (handle_reset_register p d).1)^[n]
          ((handle_reset_register plugs d).1) =
        (handle_reset_register plugs d).1 := by
  intro n
  induction n with
  | zero => rfl
  | succ m ih =>
    simp only [Function.iterate_succ_apply, handle_reset_register_idem]
    exact ih

/-- C3: `handle_reset_register` is idempotent on the participant list — for
every payload, delivering it `n + 1` times yields the same participant list as
delivering it once — and registering one identifier into the empty list yields
a participant list of size one. -/
theorem C3_register_idempotent (d : List (String × String))
    (plugs : List String) (n : Nat) :
    (fun p => (handle_reset_register p d).1)^[n + 1] plugs =
      (handle_reset_register plugs d).1 ∧
    (truthy (dataGet d "skill_id") = true →
      (handle_reset_register ([] : List String) d).1.length = 1) := by
  constructor
  · rw [Function.iterate_succ_apply]
    exact handle_reset_register_iter d plugs n
  · intro h
    simp [handle_reset_register, h]

/-- C3 witness: registering `skill_id = "A"` twice from the empty list equals
registering it once, and the resulting participant list has size one. -/
theorem C3_register_idempotent_witness :
    (fun p => (handle_reset_register p [("skill_id", "A")]).1)^[2]
        ([] : List String) =
      (handle_reset_register ([] : List String) [("skill_id", "A")]).1 ∧
    truthy (dataGet [("skill_id", "A")] "skill_id") = true ∧
    (handle_reset_register ([] : List String) [("skill_id", "A")]).1.length
      = 1 := by
  have h := C3_register_idempotent [("skill_id", "A")] [] 1
  exact ⟨h.1, by decide, h.2 (by decide)⟩

/-- C4 counterexample: the empty payload lacks `skill_id`, yet
`handle_reset_register` does NOT invoke the factory-reset sequence (second
component `false`) — contrary to the claim that every registration without a
`skill_id` is treated as a deprecated full-reset trigger. -/
theorem C4_counterexample :
    handle_reset_register [] [] = ([], false) := by decide

/-- C4 (amended): a registration without a truthy `skill_id` never changes the
participant list, and it invokes the deprecated full factory-reset path if and
only if the payload contains at least one of the legacy reset keys
`reset_hardware`, `wipe_cache`, `wipe_config`, `wipe_data`, `wipe_logs`. -/
theorem C4_legacy_trigger (plugs : List String) (d : List (String × String))
    (h : truthy (dataGet d "skill_id") = false) :
    (handle_reset_register plugs d).1 = plugs ∧
    (handle_reset_register plugs d).2 =
      legacyResetKeys.any (fun k => hasKey d k) := by
  simp [handle_reset_register, h]

/-- C4 witness: a payload carrying only `wipe_cache` lacks `skill_id`; the
participant list is unchanged and the deprecated full-reset path is taken. -/
theorem C4_legacy_trigger_witness :
    truthy (dataGet [("wipe_cache", "1")] "skill_id") = false ∧
    (handle_reset_register ["X"] [("wipe_cache", "1")]).1 = ["X"] ∧
    (handle_reset_register ["X"] [("wipe_cache", "1")]).2 =
      legacyResetKeys.any (fun k => hasKey [("wipe_cache", "1")] k) := by
  have h := C4_legacy_trigger ["X"] [("wipe_cache", "1")] (by decide)
  exact ⟨by decide, h.1, h.2⟩

/-- C9 counterexample: an acknowledgment event whose payload lacks `skill_id`
makes the `on_done` listener raise (`message.data["skill_id"]` is a
`KeyError`), so not every handler absorbs malformed payloads. -/
theorem C9_counterexample :
    on_done ["A"] [] [] = Except.error "KeyError: skill_id" := rfl

/-- C9 (amended): handlers absorb failures locally, with one exception: the
acknowledgment listener `on_done` raises exactly when the acknowledgment
payload lacks the `skill_id` key; whenever the key is present it never
fails. -/
theorem C9_on_done_raises_iff (factory_reset_plugs reset_plugs : List String)
    (d : List (String × String)) :
    raised (on_done factory_reset_plugs reset_plugs d) = true ↔
      dataGet d "skill_id" = none := by
  unfold on_done raised
  cases dataGet d "skill_id" <;> simp

/-! ### The wiping phase (C5, C6) -/

/-- C5: with `wipe_configs` disabled and `wipe_cache`, `wipe_data`,
`wipe_logs` enabled, the three configuration files keep their prior state
(they are inherited unchanged from `fs`), while the cache directory, the data
directory, every named auxiliary store and the log/state directory are all
removed. -/
theorem C5_wipe_flags_independent (plugs : List String) (cfg : PluginConfig)
    (sfe : Bool) (d : ResetData) (fs : FS) (acks : List (Nat × String))
    (hcfg : flagD d.wipe_configs = false) (hc : flagD d.wipe_cache = true)
    (hd : flagD d.wipe_data = true) (hl : flagD d.wipe_logs = true) :
    (handle_factory_reset_request plugs cfg sfe d fs acks).fs =
      { fs with
        old_identity := false
        identity := false
        cache_dir := false
        data_dir := false
        store_device_info := false
        store_oauth := false
        store_oauth_apps := false
        store_devices := false
        store_metrics := false
        store_preferences := false
        store_skills_meta := false
        db_metrics := false
        db_utterances := false
        db_wakewords := false
        log_dir := false } := by
  cases fs
  simp [handle_factory_reset_request, wipeStores, hcfg, hc, hd, hl]

/-- C5 witness: a request with `wipe_configs = False` and the other wipe flags
`True`, against a filesystem where every path exists: the user config survives
and the cache directory is gone. -/
theorem C5_wipe_flags_independent_witness :
    flagD (ResetData.mk (some true) (some true) (some true) (some false)
        none none none).wipe_configs = false ∧
    flagD (ResetData.mk (some true) (some true) (some true) (some false)
        none none none).wipe_cache = true ∧
    flagD (ResetData.mk (some true) (some true) (some true) (some false)
        none none none).wipe_data = true ∧
    flagD (ResetData.mk (some true) (some true) (some true) (some false)
        none none none).wipe_logs = true ∧
    (handle_factory_reset_request [] cfg0 false
        (ResetData.mk (some true) (some true) (some true) (some false)
          none none none) fsAll []).fs.user_config = true ∧
    (handle_factory_reset_request [] cfg0 false
        (ResetData.mk (some true) (some true) (some true) (some false)
          none none none) fsAll []).fs.cache_dir = false := by
  have h := C5_wipe_flags_independent [] cfg0 false
    (ResetData.mk (some true) (some true) (some true) (some false)
      none none none) fsAll [] rfl rfl rfl rfl
  refine ⟨rfl, rfl, rfl, rfl, ?_, ?_⟩ <;> (rw [h]; try rfl)

/-- C6 counterexample: in a factory-reset request with every wipe flag
explicitly `False`, the identity credential files are nevertheless deleted
(they were present beforehand) — deletion is not restricted to resources
whose flag is enabled. -/
theorem C6_counterexample :
    (handle_factory_reset_request [] cfg0 false dAllFalse fsAll []).fs.identity
      = false ∧
    (handle_factory_reset_request [] cfg0 false dAllFalse fsAll
      []).fs.old_identity = false ∧
    fsAll.identity = true ∧ fsAll.old_identity = true := by decide

/-- C6 (amended): the identity credential files are deleted unconditionally on
every factory-reset request; every other on-disk resource is deleted exactly
when its wipe flag is enabled and keeps its prior state when the flag is
disabled. -/
theorem C6_wipe_characterization (plugs : List String) (cfg : PluginConfig)
    (sfe : Bool) (d : ResetData) (fs : FS) (acks : List (Nat × String)) :
    (handle_factory_reset_request plugs cfg sfe d fs acks).fs =
      { old_identity := false
        identity := false
        cache_dir := if flagD d.wipe_cache then false else fs.cache_dir
        data_dir := if flagD d.wipe_data then false else fs.data_dir
        store_device_info :=
          if flagD d.wipe_data then false else fs.store_device_info
        store_oauth := if flagD d.wipe_data then false else fs.store_oauth
        store_oauth_apps :=
          if flagD d.wipe_data then false else fs.store_oauth_apps
        store_devices := if flagD d.wipe_data then false else fs.store_devices
        store_metrics := if flagD d.wipe_data then false else fs.store_metrics
        store_preferences :=
          if flagD d.wipe_data then false else fs.store_preferences
        store_skills_meta :=
          if flagD d.wipe_data then false else fs.store_skills_meta
        db_metrics := if flagD d.wipe_data then false else fs.db_metrics
        db_utterances := if flagD d.wipe_data then false else fs.db_utterances
        db_wakewords := if flagD d.wipe_data then false else fs.db_wakewords
        log_dir := if flagD d.wipe_logs then false else fs.log_dir
        old_user_config :=
          if flagD d.wipe_configs then false else fs.old_user_config
        user_config := if flagD d.wipe_configs then false else fs.user_config
        web_config_cache :=
          if flagD d.wipe_configs then false else fs.web_config_cache } := by
  cases fs
  by_cases hc : flagD d.wipe_cache = true <;>
    by_cases hd : flagD d.wipe_data = true <;>
    by_cases hl : flagD d.wipe_logs = true <;>
    by_cases hg : flagD d.wipe_configs = true <;>
    simp [handle_factory_reset_request, wipeStores, hc, hd, hl, hg]

/-! ### Language configuration (C7, C10) -/

/-- C7: a configure-language request with `language_code = "pt_PT"` stores the
normalized code `"pt-pt"` (lowercased, underscores replaced by dashes) in the
shared configuration, passes it to the locale setter, and emits the completion
event with payload exactly `lang = "pt-pt"`. -/
theorem C7_language_normalization :
    (handle_configure_language_request ""
        [("language_code", "pt_PT")]).locale_set = "pt-pt" ∧
    (handle_configure_language_request ""
        [("language_code", "pt_PT")]).config_update = [("lang", "pt-pt")] ∧
    (handle_configure_language_request ""
        [("language_code", "pt_PT")]).complete_payload
      = [("lang", "pt-pt")] := by
  exact ⟨rfl, rfl, rfl⟩

/-- C10: for every prior profile content and every raw `language_code`, the
shell profile afterwards is exactly the single line built from the raw
(un-normalized) code — the prior content never survives — while for the input
`"pt_PT"` the profile line keeps `pt_PT` and the configuration update and
completion payload use the normalized `"pt-pt"`. -/
theorem C10_profile_raw_overwrite (prior code : String) :
    (handle_configure_language_request prior
        [("language_code", code)]).bash_profile =
      "export LANG=" ++ code ++ "\n" ∧
    (handle_configure_language_request prior
        [("language_code", "pt_PT")]).bash_profile = "export LANG=pt_PT\n" ∧
    (handle_configure_language_request prior
        [("language_code", "pt_PT")]).config_update = [("lang", "pt-pt")] ∧
    (handle_configure_language_request prior
        [("language_code", "pt_PT")]).complete_payload
      = [("lang", "pt-pt")] := by
  exact ⟨rfl, rfl, rfl, rfl⟩

/-! ### The broadcast/wait phase (C1, C2, C8) -/

theorem phal_not_mem_scriptEvents (cfg : PluginConfig) (d : ResetData)
    (sfe : Bool) : BusEvent.factory_reset_phal ∉ scriptEvents cfg d sfe := by
  unfold scriptEvents
  split
  · split
    · split <;> simp
    · simp
  · simp

theorem phal_not_mem_rebootEvents (d : ResetData) :
    BusEvent.factory_reset_phal ∉ rebootEvents d := by
  unfold rebootEvents
  split <;> simp

/-- C1: with the hardware-reset flag truthy and a non-empty participant list,
the run blocks for exactly `unblockTime 60` seconds — the first second at
which every currently-known participant has been observed in an
acknowledgment, or the 60-second deadline, whichever comes first: at the
unblock second either all have acknowledged or the deadline was reached, and
at every earlier second neither held — and in both cases, timeout included,
the script and reboot phases still follow the broadcast. -/
theorem C1_ack_wait_iff (plugs : List String) (cfg : PluginConfig) (sfe : Bool)
    (d : ResetData) (fs : FS) (acks : List (Nat × String))
    (hr : flagD d.reset_hardware = true) (hne : plugs ≠ []) :
    (handle_factory_reset_request plugs cfg sfe d fs acks).waitTime =
      unblockTime 60 plugs acks ∧
    (handle_factory_reset_request plugs cfg sfe d fs acks).waitTime ≤ 60 ∧
    (eventSetBy plugs acks
        (handle_factory_reset_request plugs cfg sfe d fs acks).waitTime = true ∨
      (handle_factory_reset_request plugs cfg sfe d fs acks).waitTime = 60) ∧
    (∀ t : Nat,
      t < (handle_factory_reset_request plugs cfg sfe d fs acks).waitTime →
        eventSetBy plugs acks t = false) ∧
    (handle_factory_reset_request plugs cfg sfe d fs acks).emitted =
      [BusEvent.factory_reset_start, BusEvent.factory_reset_ping,
        BusEvent.factory_reset_phal] ++ scriptEvents cfg d sfe ++
        rebootEvents d := by
  have hpe : plugs.isEmpty = false := by
    cases plugs with
    | nil => exact absurd rfl hne
    | cons a l => rfl
  have hdw : doWait plugs d = true := by simp [doWait, hr, hpe]
  have hw : (handle_factory_reset_request plugs cfg sfe d fs acks).waitTime =
      unblockTime 60 plugs acks := by
    simp [handle_factory_reset_request, hdw]
  refine ⟨hw, ?_, ?_, ?_, ?_⟩
  · rw [hw]
    have h := waitLoop_le plugs acks 60 0
    unfold unblockTime
    omega
  · rw [hw]
    rcases waitLoop_set_or_timeout plugs acks 60 0 with h | h
    · left
      unfold unblockTime
      exact h
    · right
      unfold unblockTime
      omega
  · intro t ht
    rw [hw] at ht
    unfold unblockTime at ht
    exact waitLoop_min plugs acks 60 0 t (Nat.zero_le t) ht
  · simp [handle_factory_reset_request, hdw]

/-- C1 witness: a single participant that never acknowledges: the wait
unblocks exactly at the 60-second deadline. -/
theorem C1_ack_wait_iff_witness :
    flagD dDefault.reset_hardware = true ∧ (["A"] : List String) ≠ [] ∧
    (handle_factory_reset_request ["A"] cfg0 false dDefault fsAll []).waitTime
      = 60 := by
  refine ⟨rfl, by decide, ?_⟩
  have h := C1_ack_wait_iff ["A"] cfg0 false dDefault fsAll [] rfl (by decide)
  rw [h.1]
  decide

/-- C2: when every registered participant appears in some acknowledgment that
arrives strictly before the 60-second deadline — in any order and interleaved
with arbitrary other acknowledgments — the wait event is set and the wait
unblocks strictly before the timeout. -/
theorem C2_all_acks_unblock_early (plugs : List String) (cfg : PluginConfig)
    (sfe : Bool) (d : ResetData) (fs : FS) (acks : List (Nat × String))
    (hr : flagD d.reset_hardware = true) (hne : plugs ≠ [])
    (hall : ∀ p ∈ plugs, ∃ a ∈ acks, a.2 = p ∧ a.1 < 60) :
    (handle_factory_reset_request plugs cfg sfe d fs acks).waitTime < 60 ∧
    eventSetBy plugs acks
      (handle_factory_reset_request plugs cfg sfe d fs acks).waitTime = true := by
  have hpe : plugs.isEmpty = false := by
    cases plugs with
    | nil => exact absurd rfl hne
    | cons a l => rfl
  have hdw : doWait plugs d = true := by simp [doWait, hr, hpe]
  have hw : (handle_factory_reset_request plugs cfg sfe d fs acks).waitTime =
      waitLoop plugs acks 0 60 := by
    simp [handle_factory_reset_request, hdw, unblockTime]
  have h59 : eventSetBy plugs acks 59 = true := by
    rw [eventSetBy_true_iff]
    intro p hp
    rcases hall p hp with ⟨a, ha, h2, h1⟩
    exact ⟨a, ha, h2, by omega⟩
  have hle : waitLoop plugs acks 0 60 ≤ 59 := by
    by_contra hgt
    push_neg at hgt
    have hf := waitLoop_min plugs acks 60 0 59 (by omega) hgt
    rw [h59] at hf
    exact Bool.noConfusion hf
  constructor
  · rw [hw]
    omega
  · rw [hw]
    rcases waitLoop_set_or_timeout plugs acks 60 0 with h | h
    · exact h
    · exfalso
      omega

/-- C2 witness: participants A,B acknowledged out of order at seconds 2 and 5:
the wait unblocks strictly before the deadline with the event set. -/
theorem C2_all_acks_unblock_early_witness :
    flagD dDefault.reset_hardware = true ∧
    (["A", "B"] : List String) ≠ [] ∧
    (∀ p ∈ (["A", "B"] : List String),
      ∃ a ∈ [((2 : Nat), "B"), ((5 : Nat), "A")], a.2 = p ∧ a.1 < 60) ∧
    (handle_factory_reset_request ["A", "B"] cfg0 false dDefault fsAll
        [(2, "B"), (5, "A")]).waitTime < 60 ∧
    eventSetBy ["A", "B"] [(2, "B"), (5, "A")]
      (handle_factory_reset_request ["A", "B"] cfg0 false dDefault fsAll
        [(2, "B"), (5, "A")]).waitTime = true := by
  have h := C2_all_acks_unblock_early ["A", "B"] cfg0 false dDefault fsAll
    [(2, "B"), (5, "A")] rfl (by decide) (by decide)
  exact ⟨rfl, by decide, by decide, h.1, h.2⟩

/-- C8: when the participant list is empty or the hardware-reset flag is
falsy, the handler performs no wait (zero seconds of added latency), emits no
fan-out event at all, and moves directly from the wipe to the script phase
followed by the reboot phase. -/
theorem C8_skip_broadcast_wait (plugs : List String) (cfg : PluginConfig)
    (sfe : Bool) (d : ResetData) (fs : FS) (acks : List (Nat × String))
    (h : plugs = [] ∨ flagD d.reset_hardware = false) :
    (handle_factory_reset_request plugs cfg sfe d fs acks).waitTime = 0 ∧
    BusEvent.factory_reset_phal ∉
      (handle_factory_reset_request plugs cfg sfe d fs acks).emitted ∧
    (handle_factory_reset_request plugs cfg sfe d fs acks).emitted =
      [BusEvent.factory_reset_start, BusEvent.factory_reset_ping] ++
        scriptEvents cfg d sfe ++ rebootEvents d := by
  have hdw : doWait plugs d = false := by
    rcases h with rfl | hf
    · simp [doWait]
    · simp [doWait, hf]
  have hemit : (handle_factory_reset_request plugs cfg sfe d fs acks).emitted =
      [BusEvent.factory_reset_start, BusEvent.factory_reset_ping] ++
        scriptEvents cfg d sfe ++ rebootEvents d := by
    simp [handle_factory_reset_request, hdw]
  refine ⟨?_, ?_, hemit⟩
  · simp [handle_factory_reset_request, hdw]
  · rw [hemit]
    simp [List.mem_append, phal_not_mem_scriptEvents cfg d sfe,
      phal_not_mem_rebootEvents d]

/-- C8 witness: an empty participant list with `reset_hardware = True`: zero
wait, no fan-out event, and the emitted sequence goes straight from ping to
the script/reboot phases. -/
theorem C8_skip_broadcast_wait_witness :
    ((([] : List String) = [] ∨ flagD dDefault.reset_hardware = false)) ∧
    (handle_factory_reset_request [] cfg0 false dDefault fsAll []).waitTime
      = 0 ∧
    BusEvent.factory_reset_phal ∉
      (handle_factory_reset_request [] cfg0 false dDefault fsAll []).emitted ∧
    (handle_factory_reset_request [] cfg0 false dDefault fsAll []).emitted =
      [BusEvent.factory_reset_start, BusEvent.factory_reset_ping] ++
        scriptEvents cfg0 dDefault false ++ rebootEvents dDefault := by
  have h := C8_skip_broadcast_wait [] cfg0 false dDefault fsAll []
    (Or.inl rfl)
  exact ⟨Or.inl rfl, h.1, h.2.1, h.2.2⟩
